import Mathlib

/-!
Shallow embedding of the creqit Facebook Lead Ads client-side integration:

* `facebook_lead_ads_settings.js` — the settings form handlers (refresh,
  app_id), the OAuth2 button helpers (authorize_facebook, check_token_status,
  refresh_token) and the webhook button helper (regenerate_verify_token).
* `meta_lead_account_list.js` — render_accounts_table and escape_html.

The framework form object `frm` is modelled as an explicit document value
plus a list of emitted form actions (buttons added, indicators shown,
values set, server calls, redirects).  JavaScript string truthiness is
modelled with `Option String` (`none` stands for a missing or empty, hence
falsy, field value).  Dates are epoch milliseconds as `Int`.

Server-side code (the Python `oauth` and `webhook` modules) is not part of
this repository snapshot; where a claim depends on it, the definition is
modelled from the spec and says so in its doc comment.
-/

namespace Creqit

/-- Dashboard indicator colours used by the settings form. -/
inductive Color
  | red
  | orange
  | green
  | blue
  deriving DecidableEq, Repr

/-- The fields of the settings document that client code can write through
frm.set_value (or that the verify-token claims need to observe). -/
inductive Field
  | authorization_url
  | access_token_url
  | webhook_verify_token
  | access_token
  deriving DecidableEq, Repr

/-- The Facebook Lead Ads Settings document as the form script sees it.
`none` models a JavaScript-falsy field (missing or empty string);
`token_expiry` is epoch milliseconds. -/
structure SettingsDoc where
  enabled : Bool
  app_id : Option String
  access_token : Option String
  token_expiry : Option Int
  webhook_callback_url : Option String
  webhook_verify_token : Option String
  authorization_url : Option String
  access_token_url : Option String
  deriving DecidableEq, Repr

/-- One observable effect of a form handler: a button being added, a
dashboard indicator, a headline alert, a field write, a backend call,
a browser redirect or window, an alert toast, or a document reload. -/
inductive FormAction
  | addButton (label : String) (group : String)
  | addIndicator (label : String) (color : Color)
  | setHeadlineAlert (message : String) (color : Color)
  | setValue (f : Field) (v : String)
  | serverCall (method : String)
  | redirect (url : String)
  | openWindow (url : String)
  | showAlert (message : String)
  | msgprint (message : String) (color : Color)
  | reloadDoc
  deriving DecidableEq, Repr

/-- Apply one form action to the local document: only setValue mutates it. -/
def applyAction (doc : SettingsDoc) (a : FormAction) : SettingsDoc :=
  match a with
  | FormAction.setValue Field.authorization_url v =>
      { doc with authorization_url := some v }
  | FormAction.setValue Field.access_token_url v =>
      { doc with access_token_url := some v }
  | FormAction.setValue Field.webhook_verify_token v =>
      { doc with webhook_verify_token := some v }
  | FormAction.setValue Field.access_token v =>
      { doc with access_token := some v }
  | _ => doc

/-- Apply a list of form actions in order. -/
def applyActions (doc : SettingsDoc) (as : List FormAction) : SettingsDoc :=
  as.foldl applyAction doc

/-- Milliseconds in one day, the divisor on line 49 of the settings form. -/
def msPerDay : Int := 1000 * 60 * 60 * 24

/-- days_remaining as computed on line 49:
Math.floor((expiry - now) / (1000 * 60 * 60 * 24)); floor division of the
millisecond difference. -/
def days_remaining (expiry now : Int) : Int :=
  Int.fdiv (expiry - now) msPerDay

/-- The token-expiry dashboard block of the refresh handler
(lines 45-64): indicator and optional headline alert chosen from
token_expiry / access_token. -/
def token_expiry_block (doc : SettingsDoc) (now : Int) : List FormAction :=
  match doc.token_expiry with
  | some expiry =>
      let d := days_remaining expiry now
      if d < 0 then
        [FormAction.addIndicator "Token Expired" Color.red,
         FormAction.setHeadlineAlert
           "Access token has expired. Please authorize again." Color.red]
      else if d < 7 then
        [FormAction.addIndicator
          ("Token Expiring Soon (" ++ toString d ++ " days)") Color.orange]
      else
        [FormAction.addIndicator
          ("Token Valid (" ++ toString d ++ " days)") Color.green]
  | none =>
      match doc.access_token with
      | some _ => [FormAction.addIndicator "Token Active" Color.green]
      | none => []

/-- The custom-button block of the refresh handler (lines 7-43). -/
def custom_button_block (doc : SettingsDoc) : List FormAction :=
  if doc.enabled && doc.app_id.isSome then
    [FormAction.addButton "Authorize with Facebook" "OAuth2",
     FormAction.addButton "Check Token Status" "OAuth2",
     FormAction.addButton "Test Callback URL" "OAuth2"]
    ++ (if doc.access_token.isSome then
          [FormAction.addButton "Refresh Token" "OAuth2"]
        else [])
    ++ (if doc.webhook_callback_url.isSome then
          [FormAction.addButton "Copy Callback URL" "Webhook",
           FormAction.addButton "Copy Verify Token" "Webhook",
           FormAction.addButton "Regenerate Verify Token" "Webhook"]
        else [])
  else []

/-- The refresh handler of the Facebook Lead Ads Settings form
(lines 5-65): adds the custom buttons, then the token-expiry indicators. -/
def refresh (doc : SettingsDoc) (now : Int) : List FormAction :=
  custom_button_block doc ++ token_expiry_block doc now

/-- The app_id field handler (lines 68-75): fills in the two default
OAuth endpoint URLs when app_id is set and they are still empty. -/
def app_id_handler (doc : SettingsDoc) : List FormAction :=
  (if doc.app_id.isSome && doc.authorization_url.isNone then
     [FormAction.setValue Field.authorization_url
        "https://www.facebook.com/v24.0/dialog/oauth"]
   else [])
  ++ (if doc.app_id.isSome && doc.access_token_url.isNone then
        [FormAction.setValue Field.access_token_url
           "https://graph.facebook.com/v24.0/oauth/access_token"]
      else [])

/-- The refresh_token helper (lines 152-166): a confirmation dialog, and
only on confirm a backend call; when the response carries an
authorization_url the browser is redirected to it.  The helper never
writes a token value itself. -/
def refresh_token (confirmed : Bool) (resp_auth_url : Option String) :
    List FormAction :=
  if confirmed then
    [FormAction.serverCall "creqit.meta.FacebookLeadAds.oauth.refresh_token"]
    ++ (match resp_auth_url with
        | some url => [FormAction.redirect url]
        | none => [])
  else []

/-- The regenerate_verify_token helper (lines 197-216): a confirmation
dialog, and only on confirm the backend call that regenerates the token,
followed by an alert and a document reload when a message comes back. -/
def regenerate_verify_token (confirmed : Bool) (resp_message : Option String) :
    List FormAction :=
  if confirmed then
    [FormAction.serverCall "regenerate_verify_token"]
    ++ (match resp_message with
        | some m => [FormAction.showAlert m, FormAction.reloadDoc]
        | none => [])
  else []

/-- The authorize_facebook helper (lines 78-113): backend call for the
authorization URL; when present, an informational dialog whose primary
action opens the URL in a popup window. -/
def authorize_facebook (resp_auth_url : Option String)
    (primary_clicked : Bool) : List FormAction :=
  [FormAction.serverCall "creqit.meta.FacebookLeadAds.oauth.get_authorization_url"]
  ++ (match resp_auth_url with
      | some url =>
          [FormAction.msgprint "Facebook Authorization" Color.blue]
          ++ (if primary_clicked then [FormAction.openWindow url] else [])
      | none => [])

/-- The token status record returned by the backend get_token_info call,
as the client consumes it; an absent optional field models the
JavaScript undefined. -/
structure TokenStatus where
  has_token : Bool
  is_expired : Bool
  is_long_lived : Bool
  expires_in_days : Option Int
  expires_in_seconds : Option Int
  deriving DecidableEq, Repr

/-- The message/indicator selection of check_token_status
(lines 120-140): the if/else-if chain over the status record. -/
def status_message (status : TokenStatus) : String × Color :=
  if !status.has_token then
    ("No access token configured", Color.red)
  else if status.is_expired then
    ("Token has expired. Please re-authorize.", Color.red)
  else
    match status.expires_in_days with
    | some d =>
        ("Token is valid. Expires in " ++ toString d ++ " days ("
           ++ toString (status.expires_in_seconds.getD 0) ++ " seconds)",
         if d < 7 then Color.orange else Color.green)
    | none =>
        if status.is_long_lived then
          ("Token is active (long-lived token, no expiry)", Color.green)
        else
          ("Token is active", Color.green)

/-- The check_token_status helper (lines 115-150): backend call, then a
msgprint of the selected message when a status record comes back. -/
def check_token_status (resp : Option TokenStatus) : List FormAction :=
  [FormAction.serverCall "creqit.meta.FacebookLeadAds.oauth.get_token_info"]
  ++ (match resp with
      | some status =>
          [FormAction.msgprint (status_message status).1 (status_message status).2]
      | none => [])

/-- Modelled from the spec: the TokenRecord of the standalone design,
access_token plus a nullable expires_at (epoch seconds; absent means
long-lived).  The backing Python TokenStore is not under src. -/
structure TokenRecord where
  access_token : Option String
  expires_at : Option Int
  deriving DecidableEq, Repr

/-- Modelled from the spec: check_status(token_record), a pure function of
the current time and the record (the Python get_token_info backend is not
under src).  A record with expires_at in the past is expired; a record
without expires_at is long-lived; otherwise the remaining seconds and
days are reported. -/
def check_status (now : Int) (rec : TokenRecord) : TokenStatus :=
  match rec.access_token with
  | none =>
      { has_token := false, is_expired := false, is_long_lived := false,
        expires_in_days := none, expires_in_seconds := none }
  | some _ =>
      match rec.expires_at with
      | none =>
          { has_token := true, is_expired := false, is_long_lived := true,
            expires_in_days := none, expires_in_seconds := none }
      | some t =>
          if t < now then
            { has_token := true, is_expired := true, is_long_lived := false,
              expires_in_days := none, expires_in_seconds := none }
          else
            { has_token := true, is_expired := false, is_long_lived := false,
              expires_in_days := some (Int.fdiv (t - now) 86400),
              expires_in_seconds := some (t - now) }

/-- A network oracle: what the outside world would answer to a request.
Used to state that check_status consults no such oracle. -/
def NetOracle : Type := String → String

/-- One outbound network request, recorded as an effect. -/
inductive NetEffect
  | httpRequest (url : String)
  deriving DecidableEq, Repr

/-- Modelled from the spec: running check_status in a world with a network
oracle.  The computation is defined without consulting the oracle and
emits no network effects. -/
def check_status_run (_net : NetOracle) (now : Int) (rec : TokenRecord) :
    TokenStatus × List NetEffect :=
  (check_status now rec, [])

/-- Modelled from the spec: outcome of the GET verification handshake of
the webhook receiver (the Python webhook module is not under src).
Either the challenge is echoed back or the request is rejected with an
HTTP status. -/
inductive VerifyOutcome
  | challengeResponse (challenge : String)
  | rejected (status : Nat)
  deriving DecidableEq, Repr

/-- Modelled from the spec: the verification gate of the webhook GET
handshake.  The challenge is returned unmodified exactly when the
supplied verify_token equals the stored one; otherwise a 403-equivalent
rejection. -/
def verify_handshake (stored supplied challenge : String) : VerifyOutcome :=
  if supplied = stored then VerifyOutcome.challengeResponse challenge
  else VerifyOutcome.rejected 403

/-- HMAC block size in bytes for SHA-256. -/
def hmacBlockSize : Nat := 64

/-- Modelled from the spec: the reference HMAC construction over an
abstract compression hash (bytes to bytes).  The key is hashed when
longer than the block, zero-padded to the block, xored with the inner
and outer pads, and the hash is applied twice. -/
def hmac (hash : List Nat → List Nat) (key msg : List Nat) : List Nat :=
  let key0 := if hmacBlockSize < key.length then hash key else key
  let keyBlock := key0 ++ List.replicate (hmacBlockSize - key0.length) 0
  let innerKey := keyBlock.map (fun b => b ^^^ 0x36)
  let outerKey := keyBlock.map (fun b => b ^^^ 0x5c)
  hash (outerKey ++ hash (innerKey ++ msg))

/-- Lowercase hexadecimal digit for a nibble. -/
def hexDigit (n : Nat) : Char :=
  if n < 10 then Char.ofNat (48 + n) else Char.ofNat (87 + n)

/-- Lowercase hexadecimal encoding of a byte list. -/
def hexEncode (bs : List Nat) : List Char :=
  bs.foldr (fun b acc => hexDigit (b / 16 % 16) :: hexDigit (b % 16) :: acc) []

/-- Modelled from the spec: the signature header value the receiver
expects for a body, sha256= followed by the hex HMAC digest. -/
def expected_signature (hash : List Nat → List Nat) (secret body : List Nat) :
    String :=
  "sha256=" ++ String.mk (hexEncode (hmac hash secret body))

/-- Modelled from the spec: a normalized lead event constructed from one
webhook change value (entry to changes to value). -/
structure LeadEvent where
  lead_id : String
  page_id : String
  form_id : String
  ad_id : String
  adset_id : String
  created_time : String
  deriving DecidableEq, Repr

/-- Modelled from the spec: the decoded change value of a webhook entry;
every field may be absent in a malformed delivery. -/
structure ChangeValue where
  leadgen_id : Option String
  page_id : Option String
  form_id : Option String
  ad_id : Option String
  adset_id : Option String
  created_time : Option String
  deriving DecidableEq, Repr

/-- Modelled from the spec: one decoded webhook entry, holding an optional
list of changes each with an optional value. -/
structure Entry where
  changes : Option (List (Option ChangeValue))
  deriving DecidableEq, Repr

/-- Modelled from the spec: decode one change value into a LeadEvent;
the lead, page and form identifiers are required, the rest defaults
empty.  A missing required field is a per-entry parse failure. -/
def parse_change (v : ChangeValue) : Except Unit LeadEvent :=
  match v.leadgen_id, v.page_id, v.form_id with
  | some lid, some pid, some fid =>
      Except.ok
        { lead_id := lid, page_id := pid, form_id := fid,
          ad_id := v.ad_id.getD "", adset_id := v.adset_id.getD "",
          created_time := v.created_time.getD "" }
  | _, _, _ => Except.error ()

/-- Modelled from the spec: decode one entry into lead events, one per
change; a missing changes list, an empty one, or any change without a
value or without the required fields fails this entry alone. -/
def parse_entry (e : Entry) : Except Unit (List LeadEvent) :=
  match e.changes with
  | some (c :: cs) =>
      (c :: cs).foldr
        (fun ch acc =>
          match ch, acc with
          | some v, Except.ok evs =>
              match parse_change v with
              | Except.ok ev => Except.ok (ev :: evs)
              | Except.error u => Except.error u
          | _, _ => Except.error ())
        (Except.ok [])
  | _ => Except.error ()

/-- Modelled from the spec: best-effort decoding of the entry list — each
entry is parsed in isolation; failures are counted, successes keep their
events.  Returns the dispatched events and the failure count. -/
def parse_entries (es : List Entry) : List LeadEvent × Nat :=
  es.foldr
    (fun e acc =>
      match parse_entry e with
      | Except.ok evs => (evs ++ acc.1, acc.2)
      | Except.error _ => (acc.1, acc.2 + 1))
    ([], 0)

/-- Modelled from the spec: outcome of a POST webhook delivery. -/
inductive WebhookOutcome
  | rejectedSignature
  | rejectedMalformed
  | processed (events : List LeadEvent) (failures : Nat)
  deriving DecidableEq, Repr

/-- Modelled from the spec: the POST delivery pipeline.  The signature
gate compares the header against the HMAC of the raw body with the app
secret; only on a match is the body decoded (decode stands for the JSON
decoding of the raw bytes) and its entries parsed best-effort. -/
def receive_post (hash : List Nat → List Nat)
    (decode : List Nat → Option (List Entry))
    (secret body : List Nat) (signatureHeader : String) : WebhookOutcome :=
  if signatureHeader = expected_signature hash secret body then
    match decode body with
    | none => WebhookOutcome.rejectedMalformed
    | some es =>
        let p := parse_entries es
        WebhookOutcome.processed p.1 p.2
  else WebhookOutcome.rejectedSignature

/-- Modelled from the spec: the lead events a delivery outcome dispatches
to the consumer channel; a rejected request dispatches nothing. -/
def dispatched (o : WebhookOutcome) : List LeadEvent :=
  match o with
  | WebhookOutcome.processed evs _ => evs
  | _ => []

/-- The apostrophe character, written by code to stay clear of quoting. -/
def apos : Char := Char.ofNat 39

/-- Global single-character replacement, the meaning of one
String.prototype.replace call with a one-character global regex as on
lines 60-64 of meta_lead_account_list.js. -/
def replaceAll (t : Char) (r : List Char) : List Char → List Char
  | [] => []
  | x :: xs => (if x = t then r else [x]) ++ replaceAll t r xs

/-- The replacement text for an ampersand. -/
def entAmp : List Char := ['&', 'a', 'm', 'p', ';']

/-- The replacement text for a less-than sign. -/
def entLt : List Char := ['&', 'l', 't', ';']

/-- The replacement text for a greater-than sign. -/
def entGt : List Char := ['&', 'g', 't', ';']

/-- The replacement text for a double quote. -/
def entQuot : List Char := ['&', 'q', 'u', 'o', 't', ';']

/-- The replacement text for an apostrophe. -/
def entApos : List Char := ['&', '#', '3', '9', ';']

/-- The five entity replacement texts escape_html can emit. -/
def entities : List (List Char) := [entAmp, entLt, entGt, entQuot, entApos]

/-- escape_html of meta_lead_account_list.js lines 58-65: the chain of
five global replaces, ampersand first, then angle brackets, double quote
and apostrophe. -/
def escape_html (s : List Char) : List Char :=
  replaceAll apos entApos
    (replaceAll '"' entQuot
      (replaceAll '>' entGt
        (replaceAll '<' entLt
          (replaceAll '&' entAmp s))))

/-- Per-character view of the escape chain: each character maps to its
entity or to itself. -/
def escChar (c : Char) : List Char :=
  if c = '&' then entAmp
  else if c = '<' then entLt
  else if c = '>' then entGt
  else if c = '"' then entQuot
  else if c = apos then entApos
  else [c]

/-- True when a character list holds none of the four characters
escape_html must eliminate. -/
def noBadChar (l : List Char) : Bool :=
  l.all (fun c => c != '<' && c != '>' && c != '"' && c != apos)

/-- A character list in which every ampersand begins one of the five
entity texts: the list is a concatenation of non-ampersand characters
and whole entities, so no raw ampersand remains. -/
inductive AmpSafe : List Char → Prop
  | nil : AmpSafe []
  | consChar (c : Char) (l : List Char) :
      c ≠ '&' → AmpSafe l → AmpSafe (c :: l)
  | consEntity (e l : List Char) :
      e ∈ entities → AmpSafe l → AmpSafe (e ++ l)

/-- A JavaScript value as JSON.parse can produce it, for the dynamic
semantics render_accounts_table depends on. -/
inductive Json
  | null
  | bool (b : Bool)
  | num (n : Int)
  | str (s : List Char)
  | arr (elems : List Json)
  | obj (fields : List (String × Json))

/-- JavaScript truthiness of a possibly-undefined value (`none` is
undefined). -/
def jsTruthy (v : Option Json) : Bool :=
  match v with
  | none => false
  | some Json.null => false
  | some (Json.bool b) => b
  | some (Json.num n) => n != 0
  | some (Json.str s) => !s.isEmpty
  | some (Json.arr _) => true
  | some (Json.obj _) => true

/-- Property read v.name: throws a TypeError on null, yields the field of
an object or undefined, and undefined on every other value. -/
def jsGetField (v : Json) (name : String) : Except Unit (Option Json) :=
  match v with
  | Json.null => Except.error ()
  | Json.obj fields =>
      Except.ok ((fields.find? (fun p => p.1 = name)).map (fun p => p.2))
  | _ => Except.ok none

/-- The value of v.length: throws on null, the length of a string or an
array, undefined otherwise. -/
def jsLength (v : Json) : Except Unit (Option Int) :=
  match v with
  | Json.null => Except.error ()
  | Json.str s => Except.ok (some (Int.ofNat s.length))
  | Json.arr l => Except.ok (some (Int.ofNat l.length))
  | _ => Except.ok none

mutual

/-- JavaScript String() conversion of a parsed value; an array joins its
elements with commas, a null element joining as empty. -/
def jsToString (v : Json) : List Char :=
  match v with
  | Json.null => String.toList "null"
  | Json.bool true => String.toList "true"
  | Json.bool false => String.toList "false"
  | Json.num n => String.toList (toString n)
  | Json.str s => s
  | Json.arr l => List.intercalate [','] (jsToStringElems l)
  | Json.obj _ => String.toList "[object Object]"

/-- String() conversion of each array element, null converting to empty
as Array.prototype.join prescribes. -/
def jsToStringElems (l : List Json) : List (List Char) :=
  match l with
  | [] => []
  | Json.null :: es => [] :: jsToStringElems es
  | e :: es => jsToString e :: jsToStringElems es

end

/-- The string value of one account cell before escaping: r.fld followed
by the or-empty-string default of lines 46-50. -/
def cellRaw (r : Json) (fld : String) : Except Unit (List Char) :=
  match jsGetField r fld with
  | Except.error u => Except.error u
  | Except.ok p =>
      Except.ok (match p with
        | some j => if jsTruthy (some j) then jsToString j else []
        | none => [])

/-- One account cell of lines 46-50: the raw value passed through
escape_html. -/
def cellValue (r : Json) (fld : String) : Except Unit (List Char) :=
  Except.map escape_html (cellRaw r fld)

/-- The tasks cell of line 51: a joined array, or the value itself with
the or-empty-string default, stringified by the template — and never
escaped. -/
def tasksCell (r : Json) : Except Unit (List Char) :=
  match jsGetField r "tasks" with
  | Except.error u => Except.error u
  | Except.ok p =>
      Except.ok (match p with
        | some (Json.arr l) =>
            List.intercalate (String.toList ", ") (jsToStringElems l)
        | some j => if jsTruthy (some j) then jsToString j else []
        | none => [])

/-- Wrap a cell text in a td element. -/
def tdWrap (s : List Char) : List Char :=
  String.toList "<td>" ++ s ++ String.toList "</td>"

/-- One table row of lines 44-53 (inter-tag template whitespace dropped):
the five escaped account cells followed by the unescaped tasks cell. -/
def renderRow (r : Json) : Except Unit (List Char) :=
  match cellValue r "page_name", cellValue r "category",
        cellValue r "business_name", cellValue r "city",
        cellValue r "country", tasksCell r with
  | Except.ok c1, Except.ok c2, Except.ok c3, Except.ok c4,
    Except.ok c5, Except.ok c6 =>
      Except.ok (String.toList "<tr>" ++ tdWrap c1 ++ tdWrap c2 ++ tdWrap c3
        ++ tdWrap c4 ++ tdWrap c5 ++ tdWrap c6 ++ String.toList "</tr>")
  | _, _, _, _, _, _ => Except.error ()

/-- Render all rows in order, failing if any row throws. -/
def renderRows (rows : List Json) : Except Unit (List Char) :=
  match rows with
  | [] => Except.ok []
  | r :: rest =>
      match renderRow r, renderRows rest with
      | Except.ok h, Except.ok t => Except.ok (h ++ t)
      | _, _ => Except.error ()

/-- The fixed table header of lines 42-43. -/
def tableHead : List Char :=
  String.toList
    "<thead><tr><th>Page Name</th><th>Category</th><th>Business</th><th>City</th><th>Country</th><th>Tasks</th></tr></thead>"

/-- The container markup for the invalid-JSON branch of line 33. -/
def invalidJsonHtml : List Char :=
  String.toList "<div class=\"text-muted\">Invalid accounts JSON</div>"

/-- The container markup for the empty branch of line 38. -/
def emptyStateHtml : List Char :=
  String.toList
    "<div class=\"text-muted\">Henüz hesap yok. Sync Accounts ile getiriniz.</div>"

/-- The full table markup of line 55 around a rendered body. -/
def tableHtml (body : List Char) : List Char :=
  String.toList "<div class=\"table-responsive\"><table class=\"table table-bordered\" style=\"margin-top:8px;\">"
    ++ tableHead ++ String.toList "<tbody>" ++ body
    ++ String.toList "</tbody></table></div>"

/-- render_accounts_table of lines 26-56 over the result of JSON.parse on
the accounts_json field (an absent field parses as the empty array via
the or-default of line 28; Except.error input is a parse throw).  The
result is the final container innerHTML, or a thrown TypeError — in
which case the container was never written in this call. -/
def render_accounts_table (parsed : Except Unit Json) : Except Unit (List Char) :=
  match parsed with
  | Except.error _ => Except.ok invalidJsonHtml
  | Except.ok rows =>
      match jsLength rows with
      | Except.error u => Except.error u
      | Except.ok lenOpt =>
          if !jsTruthy (lenOpt.map Json.num) then Except.ok emptyStateHtml
          else
            match rows with
            | Json.arr elems =>
                match renderRows elems with
                | Except.ok body => Except.ok (tableHtml body)
                | Except.error u => Except.error u
            | _ => Except.error ()

/-! Helper lemmas shared by the claim theorems. -/

theorem fdiv_neg_of_neg {a b : Int} (ha : a < 0) (hb : 0 < b) :
    a.fdiv b < 0 := by
  by_contra h
  push_neg at h
  have h1 := Int.fdiv_add_fmod a b
  have h2 : a.fmod b < b := Int.fmod_lt_of_pos a hb
  have h3 : 0 ≤ a.fmod b := Int.fmod_nonneg' a hb
  nlinarith [mul_nonneg (le_of_lt hb) h]

theorem token_expiry_block_expired (doc : SettingsDoc) (now expiry : Int)
    (hexp : doc.token_expiry = some expiry) (hpast : expiry < now) :
    token_expiry_block doc now =
      [FormAction.addIndicator "Token Expired" Color.red,
       FormAction.setHeadlineAlert
         "Access token has expired. Please authorize again." Color.red] := by
  have hd : days_remaining expiry now < 0 := by
    have : expiry - now < 0 := by omega
    exact fdiv_neg_of_neg this (by norm_num [msPerDay])
  simp only [token_expiry_block, hexp]
  rw [if_pos hd]

theorem no_indicator_in_buttons (doc : SettingsDoc) (label : String)
    (c : Color) :
    FormAction.addIndicator label c ∉ custom_button_block doc := by
  simp only [custom_button_block]
  split_ifs <;> simp

/-- C1: a settings document whose token_expiry lies strictly in the past
makes the refresh handler show the red Token Expired indicator and the
red headline alert asking the operator to authorize again, and the
handler shows no green indicator at all. -/
theorem C1_expired_token_refresh (doc : SettingsDoc) (now expiry : Int)
    (hexp : doc.token_expiry = some expiry) (hpast : expiry < now) :
    FormAction.addIndicator "Token Expired" Color.red ∈ refresh doc now ∧
    FormAction.setHeadlineAlert
      "Access token has expired. Please authorize again." Color.red
      ∈ refresh doc now ∧
    ∀ label : String,
      FormAction.addIndicator label Color.green ∉ refresh doc now := by
  have hblock := token_expiry_block_expired doc now expiry hexp hpast
  refine ⟨?_, ?_, ?_⟩
  · simp [refresh, hblock]
  · simp [refresh, hblock]
  · intro label
    simp only [refresh, List.mem_append]
    rintro (h | h)
    · exact no_indicator_in_buttons doc label Color.green h
    · rw [hblock] at h
      simp at h

/-- C1 witness: a concrete settings document with token_expiry 0 viewed
at time 1. -/
theorem C1_expired_token_refresh_witness :
    (some (0 : Int) = some (0 : Int) ∧ (0 : Int) < 1) ∧
    FormAction.addIndicator "Token Expired" Color.red ∈
      refresh
        { enabled := true, app_id := some "123", access_token := some "tok",
          token_expiry := some 0, webhook_callback_url := none,
          webhook_verify_token := some "v", authorization_url := none,
          access_token_url := none } 1 :=
  ⟨⟨rfl, by norm_num⟩,
   (C1_expired_token_refresh
      { enabled := true, app_id := some "123", access_token := some "tok",
        token_expiry := some 0, webhook_callback_url := none,
        webhook_verify_token := some "v", authorization_url := none,
        access_token_url := none } 1 0 rfl (by norm_num)).1⟩

/-- C3: check_status is a pure function of the current time and the token
record — running it against any two network oracles gives the same
result, and it emits no network effect. -/
theorem C3_check_status_pure :
    ∀ (net1 net2 : NetOracle) (now : Int) (rec : TokenRecord),
      check_status_run net1 now rec = check_status_run net2 now rec ∧
      (check_status_run net1 now rec).2 = [] := by
  intro net1 net2 now rec
  exact ⟨rfl, rfl⟩

/-- C4: the refresh operation never writes any document field (so it
never silently installs a token); it does nothing without the operator
confirming; on confirmation with a response it redirects the operator to
the authorization URL from the response, and any redirect it ever emits
is to that URL under confirmation. -/
theorem C4_refresh_means_reauthorization :
    ∀ (confirmed : Bool) (resp : Option String),
      (∀ f v, FormAction.setValue f v ∉ refresh_token confirmed resp) ∧
      refresh_token false resp = [] ∧
      (∀ url, resp = some url →
        FormAction.redirect url ∈ refresh_token true resp) ∧
      (∀ url, FormAction.redirect url ∈ refresh_token confirmed resp →
        confirmed = true ∧ resp = some url) := by
  intro confirmed resp
  refine ⟨?_, rfl, ?_, ?_⟩
  · intro f v
    cases confirmed <;> cases resp <;> simp [refresh_token]
  · intro url hurl
    subst hurl
    simp [refresh_token]
  · intro url h
    cases confirmed <;> cases resp <;> simp [refresh_token] at h ⊢
    exact h.symm

/-- C4 witness: confirmed refresh with a concrete response URL redirects
there and writes nothing. -/
theorem C4_refresh_means_reauthorization_witness :
    FormAction.redirect "https://fb.example/auth" ∈
      refresh_token true (some "https://fb.example/auth") ∧
    ∀ f v, FormAction.setValue f v ∉
      refresh_token true (some "https://fb.example/auth") :=
  ⟨(C4_refresh_means_reauthorization true
      (some "https://fb.example/auth")).2.2.1 "https://fb.example/auth" rfl,
   (C4_refresh_means_reauthorization true
      (some "https://fb.example/auth")).1⟩

/-- C6: the GET verification handshake returns the challenge unmodified
exactly when the supplied verify_token equals the stored one; on any
mismatch it returns the 403 rejection and never any challenge. -/
theorem C6_verification_handshake :
    ∀ stored supplied challenge : String,
      (verify_handshake stored supplied challenge =
          VerifyOutcome.challengeResponse challenge ↔ supplied = stored) ∧
      (supplied ≠ stored →
        verify_handshake stored supplied challenge =
            VerifyOutcome.rejected 403 ∧
        ∀ c, verify_handshake stored supplied challenge ≠
            VerifyOutcome.challengeResponse c) := by
  intro stored supplied challenge
  by_cases h : supplied = stored <;> simp [verify_handshake, h]

/-- C6 witness: the stored token echoes the challenge abc123 back
unmodified; a mismatched token gets the 403 rejection. -/
theorem C6_verification_handshake_witness :
    verify_handshake "tok" "tok" "abc123" =
      VerifyOutcome.challengeResponse "abc123" ∧
    verify_handshake "tok" "bad" "abc123" = VerifyOutcome.rejected 403 :=
  ⟨(C6_verification_handshake "tok" "tok" "abc123").1.mpr rfl,
   ((C6_verification_handshake "tok" "bad" "abc123").2 (by decide)).1⟩

/-- C2: a token record with expires_at ten seconds in the past reports
is_expired and has_token, and the client shows the red expired message
for it; a record with expires_at absent reports is_long_lived and not
is_expired, and the client shows the green long-lived message for it;
the client treats any expired status as expired regardless of the
long-lived flag. -/
theorem C2_token_status_report :
    (∀ (now : Int) (rec : TokenRecord) (tok : String),
       rec.access_token = some tok → rec.expires_at = some (now - 10) →
       (check_status now rec).is_expired = true ∧
       (check_status now rec).has_token = true ∧
       status_message (check_status now rec) =
         ("Token has expired. Please re-authorize.", Color.red)) ∧
    (∀ (now : Int) (rec : TokenRecord) (tok : String),
       rec.access_token = some tok → rec.expires_at = none →
       (check_status now rec).is_long_lived = true ∧
       (check_status now rec).is_expired = false ∧
       status_message (check_status now rec) =
         ("Token is active (long-lived token, no expiry)", Color.green)) ∧
    (∀ s : TokenStatus, s.has_token = true → s.is_expired = true →
       status_message s =
         ("Token has expired. Please re-authorize.", Color.red)) := by
  refine ⟨?_, ?_, ?_⟩
  · intro now rec tok h1 h2
    have hlt : now - 10 < now := by omega
    simp [check_status, h1, h2, hlt, status_message]
  · intro now rec tok h1 h2
    simp [check_status, h1, h2, status_message]
  · intro s h1 h2
    simp [status_message, h1, h2]

/-- C2 witness: at time 0, a record expiring at -10 is expired with a
token, and a record with no expiry is long-lived and shown green. -/
theorem C2_token_status_report_witness :
    (check_status 0 { access_token := some "t", expires_at := some (-10) }).is_expired = true ∧
    status_message
        (check_status 0 { access_token := some "t", expires_at := none }) =
      ("Token is active (long-lived token, no expiry)", Color.green) :=
  ⟨(C2_token_status_report.1 0
      { access_token := some "t", expires_at := some (-10) } "t" rfl rfl).1,
   (C2_token_status_report.2.1 0
      { access_token := some "t", expires_at := none } "t" rfl rfl).2.2⟩

/-- C7: the signature gate of the POST delivery — any header that is not
the sha256-prefixed hex HMAC of the raw body under the app secret makes
the receiver reject with SignatureInvalid and dispatch nothing, for
every hash, decoder, secret and body. -/
theorem C7_signature_gate :
    ∀ (hash : List Nat → List Nat) (decode : List Nat → Option (List Entry))
      (secret body : List Nat) (sig : String),
      sig ≠ expected_signature hash secret body →
      receive_post hash decode secret body sig =
        WebhookOutcome.rejectedSignature ∧
      dispatched (receive_post hash decode secret body sig) = [] := by
  intro hash decode secret body sig h
  simp [receive_post, h, dispatched]

/-- C7 witness: a concrete mismatched header is rejected and dispatches
no events. -/
theorem C7_signature_gate_witness :
    "sha256=deadbeef" ≠
      expected_signature (fun l => [l.length % 256]) [1, 2] [3, 4] ∧
    receive_post (fun l => [l.length % 256]) (fun _ => some []) [1, 2] [3, 4]
        "sha256=deadbeef" = WebhookOutcome.rejectedSignature :=
  ⟨by decide,
   (C7_signature_gate (fun l => [l.length % 256]) (fun _ => some [])
      [1, 2] [3, 4] "sha256=deadbeef" (by decide)).1⟩

theorem applyAction_preserves_verify_token (doc : SettingsDoc)
    (a : FormAction)
    (h : ∀ v, a ≠ FormAction.setValue Field.webhook_verify_token v) :
    (applyAction doc a).webhook_verify_token = doc.webhook_verify_token := by
  cases a with
  | setValue f v =>
      cases f with
      | webhook_verify_token => exact absurd rfl (h v)
      | authorization_url => rfl
      | access_token_url => rfl
      | access_token => rfl
  | addButton l g => rfl
  | addIndicator l c => rfl
  | setHeadlineAlert m c => rfl
  | serverCall m => rfl
  | redirect u => rfl
  | openWindow u => rfl
  | showAlert m => rfl
  | msgprint m c => rfl
  | reloadDoc => rfl

theorem applyActions_preserve_verify_token (l : List FormAction) :
    ∀ doc : SettingsDoc,
      (∀ a ∈ l, ∀ v, a ≠ FormAction.setValue Field.webhook_verify_token v) →
      (applyActions doc l).webhook_verify_token = doc.webhook_verify_token := by
  induction l with
  | nil => intro doc _; rfl
  | cons a rest ih =>
      intro doc h
      have h1 : (applyAction doc a).webhook_verify_token =
          doc.webhook_verify_token :=
        applyAction_preserves_verify_token doc a (h a (List.mem_cons_self a rest))
      have h2 := ih (applyAction doc a)
        (fun b hb => h b (List.mem_cons_of_mem a hb))
      calc (applyActions doc (a :: rest)).webhook_verify_token
          = (applyActions (applyAction doc a) rest).webhook_verify_token := rfl
        _ = (applyAction doc a).webhook_verify_token := h2
        _ = doc.webhook_verify_token := h1

theorem refresh_no_setValue (doc : SettingsDoc) (now : Int) :
    ∀ a ∈ refresh doc now, ∀ f v, a ≠ FormAction.setValue f v := by
  intro a ha f v heq
  subst heq
  rcases List.mem_append.mp ha with h | h
  · simp only [custom_button_block] at h
    split_ifs at h <;> simp_all
  · rcases htok : doc.token_expiry with _ | expiry
    · rcases hacc : doc.access_token with _ | t <;>
        simp_all [token_expiry_block]
    · simp only [token_expiry_block, htok] at h
      split_ifs at h <;> simp_all

theorem app_id_handler_preserves_verify_token (doc : SettingsDoc) :
    ∀ a ∈ app_id_handler doc, ∀ v,
      a ≠ FormAction.setValue Field.webhook_verify_token v := by
  intro a ha v heq
  subst heq
  simp only [app_id_handler] at ha
  split_ifs at ha <;> simp_all

theorem refresh_token_no_setValue (conf : Bool) (resp : Option String) :
    ∀ a ∈ refresh_token conf resp, ∀ f v, a ≠ FormAction.setValue f v := by
  intro a ha f v heq
  subst heq
  cases conf <;> cases resp <;> simp_all [refresh_token]

theorem authorize_facebook_no_setValue (resp : Option String) (clicked : Bool) :
    ∀ a ∈ authorize_facebook resp clicked, ∀ f v,
      a ≠ FormAction.setValue f v := by
  intro a ha f v heq
  subst heq
  cases resp <;> cases clicked <;> simp_all [authorize_facebook]

theorem check_token_status_no_setValue (resp : Option TokenStatus) :
    ∀ a ∈ check_token_status resp, ∀ f v, a ≠ FormAction.setValue f v := by
  intro a ha f v heq
  subst heq
  cases resp <;> simp_all [check_token_status]

/-- C5: the stored webhook verify_token is stable — the refresh handler,
the app_id handler, the token-refresh helper, the authorize helper and
the status helper all leave webhook_verify_token unchanged; the
regenerate helper does nothing when the operator declines the
confirmation dialog, and only a confirmed regenerate issues the backend
call that regenerates the token. -/
theorem C5_verify_token_stability :
    ∀ (doc : SettingsDoc) (now : Int) (conf clicked : Bool)
      (resp respm : Option String) (st : Option TokenStatus),
      (applyActions doc (refresh doc now)).webhook_verify_token =
        doc.webhook_verify_token ∧
      (applyActions doc (app_id_handler doc)).webhook_verify_token =
        doc.webhook_verify_token ∧
      (applyActions doc (refresh_token conf resp)).webhook_verify_token =
        doc.webhook_verify_token ∧
      (applyActions doc (authorize_facebook resp clicked)).webhook_verify_token =
        doc.webhook_verify_token ∧
      (applyActions doc (check_token_status st)).webhook_verify_token =
        doc.webhook_verify_token ∧
      regenerate_verify_token false respm = [] ∧
      FormAction.serverCall "regenerate_verify_token" ∈
        regenerate_verify_token true respm := by
  intro doc now conf clicked resp respm st
  refine ⟨?_, ?_, ?_, ?_, ?_, rfl, ?_⟩
  · exact applyActions_preserve_verify_token _ doc
      (fun a ha v => refresh_no_setValue doc now a ha _ v)
  · exact applyActions_preserve_verify_token _ doc
      (app_id_handler_preserves_verify_token doc)
  · exact applyActions_preserve_verify_token _ doc
      (fun a ha v => refresh_token_no_setValue conf resp a ha _ v)
  · exact applyActions_preserve_verify_token _ doc
      (fun a ha v => authorize_facebook_no_setValue resp clicked a ha _ v)
  · exact applyActions_preserve_verify_token _ doc
      (fun a ha v => check_token_status_no_setValue st a ha _ v)
  · cases respm <;> simp [regenerate_verify_token]

theorem parse_entries_append (xs ys : List Entry) :
    parse_entries (xs ++ ys) =
      ((parse_entries xs).1 ++ (parse_entries ys).1,
       (parse_entries xs).2 + (parse_entries ys).2) := by
  induction xs with
  | nil => simp [parse_entries]
  | cons e rest ih =>
      simp only [List.cons_append, parse_entries, List.foldr_cons] at *
      rw [ih]
      cases parse_entry e <;> simp
      omega

/-- C8: entry decoding is best-effort with per-entry isolation — the
events and failure count of a concatenation are the concatenation of the
events and the sum of the failures, and a correctly signed delivery
whose body decodes to three entries with exactly the middle one
malformed dispatches exactly the two other lead events with one failure
counted. -/
theorem C8_best_effort_isolation :
    (∀ xs ys : List Entry,
       parse_entries (xs ++ ys) =
         ((parse_entries xs).1 ++ (parse_entries ys).1,
          (parse_entries xs).2 + (parse_entries ys).2)) ∧
    (∀ (hash : List Nat → List Nat) (decode : List Nat → Option (List Entry))
       (secret body : List Nat) (sig : String) (e1 e2 e3 : Entry)
       (ev1 ev3 : LeadEvent),
       parse_entry e1 = Except.ok [ev1] →
       parse_entry e2 = Except.error () →
       parse_entry e3 = Except.ok [ev3] →
       sig = expected_signature hash secret body →
       decode body = some [e1, e2, e3] →
       receive_post hash decode secret body sig =
         WebhookOutcome.processed [ev1, ev3] 1 ∧
       dispatched (receive_post hash decode secret body sig) = [ev1, ev3] ∧
       (dispatched (receive_post hash decode secret body sig)).length = 2) := by
  refine ⟨parse_entries_append, ?_⟩
  intro hash decode secret body sig e1 e2 e3 ev1 ev3 h1 h2 h3 hsig hdec
  have hps : parse_entries [e1, e2, e3] = ([ev1, ev3], 1) := by
    simp [parse_entries, h1, h2, h3]
  have hrp : receive_post hash decode secret body sig =
      WebhookOutcome.processed [ev1, ev3] 1 := by
    simp [receive_post, hsig, hdec, hps]
  exact ⟨hrp, by rw [hrp]; rfl, by rw [hrp]; rfl⟩

/-- C8 witness: three concrete entries, the middle one without changes,
under a concrete hash and decoder: exactly two lead events dispatch and
one failure is counted. -/
theorem C8_best_effort_isolation_witness :
    parse_entry
        { changes := some [some
            { leadgen_id := some "l1", page_id := some "p1",
              form_id := some "f1", ad_id := none, adset_id := none,
              created_time := none }] } =
      Except.ok [{ lead_id := "l1", page_id := "p1", form_id := "f1",
                   ad_id := "", adset_id := "", created_time := "" }] ∧
    parse_entry { changes := none } = Except.error () ∧
    (dispatched (receive_post (fun l => [l.length % 256])
        (fun _ => some
          [{ changes := some [some
               { leadgen_id := some "l1", page_id := some "p1",
                 form_id := some "f1", ad_id := none, adset_id := none,
                 created_time := none }] },
           { changes := none },
           { changes := some [some
               { leadgen_id := some "l3", page_id := some "p3",
                 form_id := some "f3", ad_id := none, adset_id := none,
                 created_time := none }] }])
        [7] [8, 9]
        (expected_signature (fun l => [l.length % 256]) [7] [8, 9]))).length
      = 2 :=
  ⟨rfl, rfl,
   (C8_best_effort_isolation.2 (fun l => [l.length % 256])
      (fun _ => some
        [{ changes := some [some
             { leadgen_id := some "l1", page_id := some "p1",
               form_id := some "f1", ad_id := none, adset_id := none,
               created_time := none }] },
         { changes := none },
         { changes := some [some
             { leadgen_id := some "l3", page_id := some "p3",
               form_id := some "f3", ad_id := none, adset_id := none,
               created_time := none }] }])
      [7] [8, 9] (expected_signature (fun l => [l.length % 256]) [7] [8, 9])
      { changes := some [some
          { leadgen_id := some "l1", page_id := some "p1",
            form_id := some "f1", ad_id := none, adset_id := none,
            created_time := none }] }
      { changes := none }
      { changes := some [some
          { leadgen_id := some "l3", page_id := some "p3",
            form_id := some "f3", ad_id := none, adset_id := none,
            created_time := none }] }
      { lead_id := "l1", page_id := "p1", form_id := "f1", ad_id := "",
        adset_id := "", created_time := "" }
      { lead_id := "l3", page_id := "p3", form_id := "f3", ad_id := "",
        adset_id := "", created_time := "" }
      rfl rfl rfl rfl rfl).2.2⟩

theorem replaceAll_append (t : Char) (r a b : List Char) :
    replaceAll t r (a ++ b) = replaceAll t r a ++ replaceAll t r b := by
  induction a with
  | nil => rfl
  | cons x xs ih => simp [replaceAll, ih]

theorem escape_html_append (a b : List Char) :
    escape_html (a ++ b) = escape_html a ++ escape_html b := by
  simp [escape_html, replaceAll_append]

theorem escape_html_single (c : Char) : escape_html [c] = escChar c := by
  simp only [escChar]
  split_ifs with h1 h2 h3 h4 h5
  · subst h1; rfl
  · subst h2; rfl
  · subst h3; rfl
  · subst h4; rfl
  · subst h5; rfl
  · simp [escape_html, replaceAll, h1, h2, h3, h4, h5]

theorem escape_html_cons (c : Char) (s : List Char) :
    escape_html (c :: s) = escChar c ++ escape_html s := by
  have : c :: s = [c] ++ s := rfl
  rw [this, escape_html_append, escape_html_single]

theorem noBadChar_append (a b : List Char) :
    noBadChar (a ++ b) = (noBadChar a && noBadChar b) := by
  simp [noBadChar, List.all_append]

theorem noBadChar_escChar (c : Char) : noBadChar (escChar c) = true := by
  simp only [escChar]
  split_ifs with h1 h2 h3 h4 h5
  · rfl
  · rfl
  · rfl
  · rfl
  · rfl
  · simp [noBadChar, h2, h3, h4, h5]

theorem noBadChar_escape_html (s : List Char) :
    noBadChar (escape_html s) = true := by
  induction s with
  | nil => rfl
  | cons c cs ih =>
      rw [escape_html_cons, noBadChar_append, noBadChar_escChar, ih]
      rfl

theorem escChar_entity_or_plain (c : Char) :
    escChar c ∈ entities ∨ (escChar c = [c] ∧ c ≠ '&') := by
  simp only [escChar]
  split_ifs with h1 h2 h3 h4 h5
  · left; simp [entities]
  · left; simp [entities]
  · left; simp [entities]
  · left; simp [entities]
  · left; simp [entities]
  · right; exact ⟨rfl, h1⟩

theorem ampSafe_escape_html (s : List Char) : AmpSafe (escape_html s) := by
  induction s with
  | nil => exact AmpSafe.nil
  | cons c cs ih =>
      rw [escape_html_cons]
      rcases escChar_entity_or_plain c with h | ⟨heq, hne⟩
      · exact AmpSafe.consEntity _ _ h ih
      · rw [heq]; exact AmpSafe.consChar c _ hne ih

/-- C9: escape_html leaves no literal angle bracket, double quote or
apostrophe in its output and every ampersand it outputs begins an
entity; every account cell the table renderer builds for the page_name,
category, business_name, city and country fields is the escape_html
image of the raw field value, hence free of those characters; and a
successfully rendered row is exactly the six td cells, the five escaped
ones then the tasks cell. -/
theorem C9_escape_and_cells :
    (∀ s : List Char,
       noBadChar (escape_html s) = true ∧ AmpSafe (escape_html s)) ∧
    (∀ r : Json, ∀ fld : String,
       cellValue r fld = Except.map escape_html (cellRaw r fld)) ∧
    (∀ (r : Json) (fld : String) (v : List Char),
       fld ∈ ["page_name", "category", "business_name", "city", "country"] →
       cellValue r fld = Except.ok v →
       noBadChar v = true ∧ AmpSafe v) ∧
    (∀ (r : Json) (out : List Char),
       renderRow r = Except.ok out →
       ∃ v1 v2 v3 v4 v5 t,
         cellValue r "page_name" = Except.ok v1 ∧
         cellValue r "category" = Except.ok v2 ∧
         cellValue r "business_name" = Except.ok v3 ∧
         cellValue r "city" = Except.ok v4 ∧
         cellValue r "country" = Except.ok v5 ∧
         tasksCell r = Except.ok t ∧
         out = String.toList "<tr>" ++ tdWrap v1 ++ tdWrap v2 ++ tdWrap v3
           ++ tdWrap v4 ++ tdWrap v5 ++ tdWrap t ++ String.toList "</tr>") := by
  refine ⟨fun s => ⟨noBadChar_escape_html s, ampSafe_escape_html s⟩,
    fun r fld => rfl, ?_, ?_⟩
  · intro r fld v _ hok
    rcases hraw : cellRaw r fld with u | w
    · rw [cellValue, hraw] at hok; exact absurd hok (by simp [Except.map])
    · rw [cellValue, hraw] at hok
      simp only [Except.map] at hok
      cases hok
      exact ⟨noBadChar_escape_html w, ampSafe_escape_html w⟩
  · intro r out hok
    rw [renderRow] at hok
    rcases h1 : cellValue r "page_name" with u | v1 <;> rw [h1] at hok
    · exact absurd hok (by simp)
    rcases h2 : cellValue r "category" with u | v2 <;> rw [h2] at hok
    · exact absurd hok (by simp)
    rcases h3 : cellValue r "business_name" with u | v3 <;> rw [h3] at hok
    · exact absurd hok (by simp)
    rcases h4 : cellValue r "city" with u | v4 <;> rw [h4] at hok
    · exact absurd hok (by simp)
    rcases h5 : cellValue r "country" with u | v5 <;> rw [h5] at hok
    · exact absurd hok (by simp)
    rcases h6 : tasksCell r with u | t <;> rw [h6] at hok
    · exact absurd hok (by simp)
    simp only [Except.ok.injEq] at hok
    exact ⟨v1, v2, v3, v4, v5, t, rfl, rfl, rfl, rfl, rfl, rfl, hok.symm⟩

/-- C9 witness: a concrete row whose page_name holds markup renders that
cell as its escaped form, with no literal dangerous character left. -/
theorem C9_escape_and_cells_witness :
    cellValue
        (Json.obj [("page_name",
           Json.str (String.toList "<b>x</b>"))]) "page_name" =
      Except.ok (String.toList "&lt;b&gt;x&lt;/b&gt;") ∧
    noBadChar (String.toList "&lt;b&gt;x&lt;/b&gt;") = true :=
  ⟨rfl,
   (C9_escape_and_cells.2.2.1
      (Json.obj [("page_name", Json.str (String.toList "<b>x</b>"))])
      "page_name" (String.toList "&lt;b&gt;x&lt;/b&gt;")
      (by simp) rfl).1⟩

/-- C10 counterexample: the accounts_json text null is valid JSON, so the
parse branch is passed, yet reading .length on the parsed null throws a
TypeError — render_accounts_table is not total over its input. -/
theorem C10_null_input_throws :
    render_accounts_table (Except.ok Json.null) = Except.error () := rfl

/-- C10 (amended): a parse failure renders the invalid-JSON message
without throwing, an empty array renders the empty-state message, every
successful render is the invalid message, the empty-state message or
the table of a non-empty parsed array — never a partial table; but the
handler is not total: parsed null, or a parsed non-empty string, makes
it throw before writing anything. -/
theorem C10_render_accounts_table_amended :
    ∀ parsed : Except Unit Json,
      (parsed = Except.error () →
        render_accounts_table parsed = Except.ok invalidJsonHtml) ∧
      (parsed = Except.ok (Json.arr []) →
        render_accounts_table parsed = Except.ok emptyStateHtml) ∧
      (∀ out, render_accounts_table parsed = Except.ok out →
        out = invalidJsonHtml ∨ out = emptyStateHtml ∨
        ∃ elems body, parsed = Except.ok (Json.arr elems) ∧ elems ≠ [] ∧
          renderRows elems = Except.ok body ∧ out = tableHtml body) ∧
      (render_accounts_table (Except.ok Json.null) = Except.error ()) ∧
      (∀ s : List Char, s ≠ [] →
        render_accounts_table (Except.ok (Json.str s)) = Except.error ()) := by
  intro parsed
  refine ⟨?_, ?_, ?_, rfl, ?_⟩
  · intro h; subst h; rfl
  · intro h; subst h; rfl
  · intro out h
    rcases parsed with u | rows
    · left
      simp only [render_accounts_table, Except.ok.injEq] at h
      exact h.symm
    · rcases rows with _ | b | n | s | elems | fields
      · simp [render_accounts_table, jsLength] at h
      · right; left
        simp only [render_accounts_table, jsLength, jsTruthy, Option.map,
          Bool.not_false, if_true, Except.ok.injEq] at h
        exact h.symm
      · right; left
        simp only [render_accounts_table, jsLength, jsTruthy, Option.map,
          Bool.not_false, if_true, Except.ok.injEq] at h
        exact h.symm
      · rcases s with _ | ⟨c, cs⟩
        · right; left
          simp only [render_accounts_table, jsLength, jsTruthy,
            Option.map] at h
          simp at h
          exact h.symm
        · simp only [render_accounts_table, jsLength, jsTruthy,
            Option.map] at h
          split at h
          · rename_i hc
            simp at hc
            omega
          · simp at h
      · rcases elems with _ | ⟨e, es⟩
        · right; left
          simp only [render_accounts_table, jsLength, jsTruthy,
            Option.map] at h
          simp at h
          exact h.symm
        · right; right
          simp only [render_accounts_table, jsLength, jsTruthy,
            Option.map] at h
          rcases hrr : renderRows (e :: es) with u | body
          · rw [hrr] at h
            split at h
            · rename_i hc
              simp at hc
              omega
            · simp at h
          · rw [hrr] at h
            split at h
            · rename_i hc
              simp at hc
              omega
            · simp only [Except.ok.injEq] at h
              exact ⟨e :: es, body, rfl, by simp, hrr, h.symm⟩
      · right; left
        simp only [render_accounts_table, jsLength, jsTruthy, Option.map,
          Bool.not_false, if_true, Except.ok.injEq] at h
        exact h.symm
  · intro s hs
    rcases s with _ | ⟨c, cs⟩
    · exact absurd rfl hs
    · rfl

/-- C10 witness for the amended claim: a parse failure renders the
invalid-JSON message, the empty array renders the empty state, and a
parsed non-empty string throws. -/
theorem C10_render_accounts_table_amended_witness :
    render_accounts_table (Except.error ()) = Except.ok invalidJsonHtml ∧
    render_accounts_table (Except.ok (Json.arr [])) =
      Except.ok emptyStateHtml ∧
    render_accounts_table (Except.ok (Json.str [Char.ofNat 97])) =
      Except.error () :=
  ⟨(C10_render_accounts_table_amended (Except.error ())).1 rfl,
   (C10_render_accounts_table_amended (Except.ok (Json.arr []))).2.1 rfl,
   (C10_render_accounts_table_amended
      (Except.ok (Json.str [Char.ofNat 97]))).2.2.2.2 [Char.ofNat 97]
      (by simp)⟩

end Creqit
